import Mathlib

/-!
Verification of `src/Linux/xssh.py` (SSH multi-host command executor).

The Python program is shallowly embedded below.  Pure helpers become Lean
functions on `String`/`List`; the impure pieces (SSH transport, the FIFO
based process substitution, the temporary-directory listing) are abstracted
as explicit parameters, so every host's session outcome and the order in
which `os.listdir` returns the per-host output files are inputs of the model.
-/

/-! ### Python string primitives -/

/-- Python `needle in hay` (substring containment) on char lists. -/
def charsContain (needle hay : List Char) : Bool :=
  hay.tails.any (fun t => needle.isPrefixOf t)

/-- Python `needle in hay` for strings. -/
def pyContains (hay needle : String) : Bool :=
  charsContain needle.toList hay.toList

/-- Python `s.lower()` (ASCII case folding suffices for the config data). -/
def pyLower (s : String) : String :=
  String.mk (s.toList.map Char.toLower)

/-- Python `s.strip()`. -/
def pyStrip (s : String) : String :=
  String.mk (((s.toList.dropWhile Char.isWhitespace).reverse.dropWhile Char.isWhitespace).reverse)

/-- Python `s.startswith(pre)`. -/
def pyStartsWith (s pre : String) : Bool :=
  pre.toList.isPrefixOf s.toList

/-- Helper for `pySplit`: accumulates the current run of non-whitespace chars. -/
def pySplitAux : List Char → List Char → List String
  | [], cur => if cur = [] then [] else [String.mk cur.reverse]
  | c :: cs, cur =>
    if c.isWhitespace then
      if cur = [] then pySplitAux cs []
      else String.mk cur.reverse :: pySplitAux cs []
    else pySplitAux cs (c :: cur)

/-- Python `s.split()` (split on whitespace runs, no empty fields). -/
def pySplit (s : String) : List String :=
  pySplitAux s.toList []

/-- Helper for `splitDot`. -/
def splitDotAux : List Char → List Char → List String
  | [], cur => [String.mk cur.reverse]
  | c :: cs, cur =>
    if c = '.' then String.mk cur.reverse :: splitDotAux cs []
    else splitDotAux cs (c :: cur)

/-- Python `s.split(".")` (empty fields kept). -/
def splitDot (s : String) : List String :=
  splitDotAux s.toList []

/-- Python `a < b` on strings: lexicographic by code point, on char lists. -/
def charListLt : List Char → List Char → Bool
  | [], [] => false
  | [], _ :: _ => true
  | _ :: _, [] => false
  | a :: as, b :: bs =>
    if a < b then true else if b < a then false else charListLt as bs

/-- Python string `<`. -/
def pyStrLt (a b : String) : Bool :=
  charListLt a.toList b.toList

/-- Lexicographic `≤` on lists of strings, as Python compares `list[str]`. -/
def segListLe : List String → List String → Bool
  | [], _ => true
  | _ :: _, [] => false
  | a :: as, b :: bs =>
    if pyStrLt a b then true else if pyStrLt b a then false else segListLe as bs

/-- The sort key comparison of `sorted(hosts_set, key=lambda x: x.split("."))`:
dot-separated segment sequences compared segment-wise. -/
def segLe (a b : String) : Bool :=
  segListLe (splitDot a) (splitDot b)

/-- Insertion step of a sort by `le`. -/
def insertSorted (le : String → String → Bool) (x : String) : List String → List String
  | [] => [x]
  | y :: ys => if le x y then x :: y :: ys else y :: insertSorted le x ys

/-- `sorted(·, key=lambda x: x.split("."))`.  The aliases in `hosts_set` are
pairwise distinct and `splitDot` is injective, so any correct sort under the
total segment-wise order produces Python's result. -/
def sortBySeg (l : List String) : List String :=
  l.foldr (insertSorted segLe) []

/-- Python `set.add` on an insertion-ordered duplicate-free list. -/
def setAdd (s : List String) (x : String) : List String :=
  if s.contains x then s else s ++ [x]

/-- Python `dict.__setitem__` on an association list. -/
def dictSet (d : List (String × String)) (k v : String) : List (String × String) :=
  match d with
  | [] => [(k, v)]
  | kv :: rest => if kv.1 = k then (k, v) :: rest else kv :: dictSet rest k v

/-- Python `dict.get(k, dflt)`. -/
def dictGetD (d : List (String × String)) (k dflt : String) : String :=
  match d.find? (fun kv => kv.1 == k) with
  | some kv => kv.2
  | none => dflt

/-! ### Registry parsing (`extract_hosts`, lines 151–169) -/

/-- Parser state of the config-reading loop in `extract_hosts`:
`current_host` (initially `""`), the `hostnames` dict and the `hosts_set` set. -/
structure ParseState where
  current_host : String
  hostnames : List (String × String)
  hosts_set : List String
deriving DecidableEq, Repr

/-- The inner loop `for h in parts[1:]` of a `Host` line: a token without `*`
becomes the current host and joins `hosts_set`; a wildcard token is skipped. -/
def parseHostTokens (st : ParseState) (tokens : List String) : ParseState :=
  tokens.foldl
    (fun st h =>
      if pyContains h "*" then st
      else { st with current_host := h, hosts_set := setAdd st.hosts_set h })
    st

/-- One iteration of the line loop in `extract_hosts`. -/
def parseLine (st : ParseState) (rawLine : String) : ParseState :=
  let line := pyStrip rawLine
  if line = "" || pyStartsWith line "#" then st
  else if pyStartsWith line "Host " then
    parseHostTokens st (pySplit line).tail
  else if pyStartsWith line "Hostname " then
    if st.current_host ≠ "" then
      match (pySplit line).get? 1 with
      | some addr => { st with hostnames := dictSet st.hostnames st.current_host addr }
      | none => st
    else st
  else st

/-- The whole config-reading loop of `extract_hosts` over the file's lines. -/
def parse_ssh_config (lines : List String) : ParseState :=
  lines.foldl parseLine ⟨"", [], []⟩

/-! ### Host matching (`extract_hosts`, lines 170–176) -/

/-- The `for host in sorted(hosts_set, ...)` loop: keep hosts containing the
pattern case-insensitively and without `*`, map through `hostnames.get(host, host)`,
and append unless the resolved name was already printed. -/
def matchLoop (hn : List (String × String)) (pat : String) (printed : List String) :
    List String → List String
  | [] => []
  | host :: rest =>
    if pyContains (pyLower host) (pyLower pat) && !(pyContains host "*") then
      let hostname := dictGetD hn host host
      if printed.contains hostname then matchLoop hn pat printed rest
      else hostname :: matchLoop hn pat (hostname :: printed) rest
    else matchLoop hn pat printed rest

/-- The matched host list computed by `extract_hosts` before the ambiguity and
fallback checks. -/
def matched_hosts (hs : List String) (hn : List (String × String)) (pat : String) :
    List String :=
  matchLoop hn pat [] (sortBySeg hs)

/-- Python `pattern.split("@", 1)` step of `extract_hosts`: `(USERNAME, host_pattern)`,
username empty when no `@` occurs. -/
def splitAtFirstAt : List Char → Option (List Char × List Char)
  | [] => none
  | x :: xs =>
    if x = '@' then some ([], xs)
    else
      match splitAtFirstAt xs with
      | some (l, r) => some (x :: l, r)
      | none => none

/-- `(USERNAME, host_pattern)` as computed at the top of `extract_hosts`. -/
def split_user_host (p : String) : String × String :=
  match splitAtFirstAt p.toList with
  | some (u, h) => (String.mk u, String.mk h)
  | none => ("", p)

/-! ### Run-scoped errors (each reaches `sys.exit(1)` in the source) -/

/-- The run-aborting conditions of the source; every one exits the process
with status 1. -/
inductive XsshError where
  | massRequiresCommand
  | restrictedCommand (cmd : String)
  | ambiguousHost (candidates : List String)
deriving DecidableEq, Repr

/-- Exit status passed to `sys.exit` for each run-scoped error (always 1). -/
def xsshErrorExitCode : XsshError → Nat := fun _ => 1

/-- `extract_hosts` (lines 140–188): resolve the pattern to a host list,
abort on ambiguity without mass mode, fall back to the literal pattern when
nothing matched. -/
def extract_hosts (configLines : List String) (PATTERN : String) (MASS_MODE : Bool) :
    Except XsshError (List String) :=
  let host_pattern := (split_user_host PATTERN).2
  let st := parse_ssh_config configLines
  let HOSTS := matched_hosts st.hosts_set st.hostnames host_pattern
  if HOSTS.length > 1 && !MASS_MODE then .error (.ambiguousHost HOSTS)
  else if HOSTS = [] then .ok [host_pattern]
  else .ok HOSTS

/-! ### Command validation (`validate_command` / `validate_input`, lines 102–132) -/

/-- The restricted-command list of `validate_command`. -/
def forbidden_commands : List String := ["shutdown", "poweroff", "reboot"]

/-- `validate_command`: scan the joined command text for the first forbidden
substring; a hit exits the run. -/
def validate_command (COMMAND : List String) : Except XsshError Unit :=
  let cmd_str := String.intercalate " " COMMAND
  match forbidden_commands.find? (fun cmd => pyContains cmd_str cmd) with
  | some cmd => .error (.restrictedCommand cmd)
  | none => .ok ()

/-- The validation part of `validate_input`: mass mode without a command exits;
mass mode with a command goes through `validate_command`. -/
def validate_input (MASS_MODE : Bool) (COMMAND : List String) : Except XsshError Unit :=
  if MASS_MODE && COMMAND.isEmpty then .error .massRequiresCommand
  else if MASS_MODE && !COMMAND.isEmpty then validate_command COMMAND
  else .ok ()

/-! ### Command building (`wrap_remote_command`, lines 214–230)

`handle_process_substitution` is impure (it creates FIFOs in the temp
directory, names them from the PID, and spawns writer threads), so the
transformation it applies to the joined command string enters the model as an
explicit parameter `subst`; on a string without a `<(...)` marker the real
function finds no regex match and returns its input unchanged, i.e. `subst`
behaves as the identity there. -/

/-- A single quote, as Python's `f"'{c}'"` uses around each token. -/
def SQ : String := String.singleton (Char.ofNat 39)

/-- Python `f"'{c}'"`: wrap a token in single quotes (no escaping of embedded
quotes — the source does none). -/
def pyQuote (c : String) : String := SQ ++ c ++ SQ

/-- The metacharacter string `"&|;><$(){}[]*"` tested by `wrap_remote_command`. -/
def SHELL_METACHARS : String := "&|;><$()\x7b\x7d[]*"

/-- `any(char in cmd_str for char in "&|;><$(){}[]*")`. -/
def hasShellMeta (cmd_str : String) : Bool :=
  SHELL_METACHARS.toList.any (fun ch => cmd_str.toList.contains ch)

/-- `wrap_remote_command`, with the process-substitution pass abstracted as
`subst`.  Note the source tests `len(COMMAND) == 1` before the metacharacter
check, so a lone token is always returned verbatim. -/
def wrap_remote_command (subst : String → String) (COMMAND : List String)
    (SUDO_MODE : Bool) : String :=
  if COMMAND = [] then ""
  else
    let cmd_str := subst (String.intercalate " " COMMAND)
    if COMMAND.length = 1 then
      if SUDO_MODE then "sudo " ++ cmd_str else cmd_str
    else if hasShellMeta cmd_str || COMMAND.length > 1 then
      let quoted_cmd := String.intercalate " " (COMMAND.map pyQuote)
      if SUDO_MODE then "sudo sh -c " ++ quoted_cmd else "sh -c " ++ quoted_cmd
    else if SUDO_MODE then "sudo " ++ cmd_str
    else cmd_str

/-! ### Per-host execution (`execute_ssh`, lines 233–282)

The paramiko session is abstracted as `conn : Except String (String × Int)`:
either the text of the exception raised while connecting or running the
command, or the combined stdout+stderr text together with the remote exit
status. -/

/-- Exit-code policy of `execute_ssh` (lines 262–268): a nonzero remote status
is kept; a zero status is downgraded to 127 when the output contains `error`
or `not found` case-insensitively. -/
def exit_code_policy (exit_status : Int) (output : String) : Int :=
  if exit_status ≠ 0 then exit_status
  else if pyContains (pyLower output) "error" || pyContains (pyLower output) "not found" then
    127
  else 0

/-- Result of one `execute_ssh` call: the content of the host's output file,
whether the file was created at all (it is only created on first write), and
the returned exit code. -/
structure HostRun where
  buffer : String
  wrote : Bool
  code : Int
deriving DecidableEq, Repr

/-- `execute_ssh`: write the verbose header, then either record the connection
failure (code 1, exception text appended to the buffer), run the command and
apply the exit-code policy, or report the unsupported interactive session
(code 1) when the built command is empty. -/
def execute_ssh (VERBOSE_MODE : Bool) (host hdrText : String)
    (conn : Except String (String × Int)) (remote_cmd : String) : HostRun :=
  let hdrWritten := VERBOSE_MODE && hdrText != ""
  let base := if hdrWritten then hdrText ++ "\n" else ""
  match conn with
  | .error e =>
    ⟨base ++ "Connection failed on " ++ host ++ ": " ++ e ++ "\n", true, 1⟩
  | .ok (output, exit_status) =>
    if remote_cmd != "" then
      ⟨base ++ output, true, exit_code_policy exit_status output⟩
    else ⟨base, hdrWritten, 1⟩

/-- The per-host verbose header `--- host ---` used by `parallel_execute`. -/
def massHdr (VERBOSE_MODE : Bool) (host : String) : String :=
  if VERBOSE_MODE then "--- " ++ host ++ " ---" else ""

/-- The per-host results produced by the threads `parallel_execute` spawns,
one per host in host-list order. -/
def fleet_results (HOSTS : List String) (VERBOSE_MODE : Bool)
    (conn : String → Except String (String × Int)) (remote_cmd : String) :
    List (String × HostRun) :=
  HOSTS.map (fun h =>
    (h, execute_ssh VERBOSE_MODE h (massHdr VERBOSE_MODE h) (conn h) remote_cmd))

/-- The hosts whose output file exists in the temp directory after the join
barrier (a file appears only once something was written to it). -/
def written_hosts (HOSTS : List String) (VERBOSE_MODE : Bool)
    (conn : String → Except String (String × Int)) (remote_cmd : String) :
    List String :=
  HOSTS.filter (fun h =>
    (execute_ssh VERBOSE_MODE h (massHdr VERBOSE_MODE h) (conn h) remote_cmd).wrote)

/-- `parallel_execute` after the join barrier: print every file `os.listdir`
returns (each `print` appends a newline).  `listing` is the directory listing,
an unspecified permutation of `written_hosts`; the host names stand for their
`<host>.out` files. -/
def parallel_execute (_HOSTS : List String) (VERBOSE_MODE : Bool)
    (conn : String → Except String (String × Int)) (remote_cmd : String)
    (listing : List String) : String :=
  String.join (listing.map (fun h =>
    (execute_ssh VERBOSE_MODE h (massHdr VERBOSE_MODE h) (conn h) remote_cmd).buffer ++ "\n"))

/-! ### The whole run (`__main__`, lines 310–322) -/

/-- Observable trace of one run: the aborting error (with the process exit
status passed to `sys.exit`) if any, whether host resolution was reached,
the hosts a connection was attempted to, and the aggregated report text. -/
structure RunTrace where
  failure : Option (XsshError × Nat)
  resolutionRan : Bool
  sessions : List String
  output : String
deriving DecidableEq, Repr

/-- The main control flow: `validate_input`, then `extract_hosts`, then
mass (`parallel_execute`) or sequential (`execute_ssh_command`) execution.
`sys.exit` inside the earlier phases skips everything after it. -/
def xssh_main (configLines : List String) (PATTERN : String)
    (MASS_MODE SUDO_MODE VERBOSE_MODE : Bool) (COMMAND : List String)
    (subst : String → String) (conn : String → Except String (String × Int))
    (listing : List String) : RunTrace :=
  match validate_input MASS_MODE COMMAND with
  | .error e => ⟨some (e, xsshErrorExitCode e), false, [], ""⟩
  | .ok () =>
    match extract_hosts configLines PATTERN MASS_MODE with
    | .error e => ⟨some (e, xsshErrorExitCode e), true, [], ""⟩
    | .ok hosts =>
      let remote_cmd := wrap_remote_command subst COMMAND SUDO_MODE
      if MASS_MODE then
        ⟨none, true, hosts, parallel_execute hosts VERBOSE_MODE conn remote_cmd listing⟩
      else
        ⟨none, true, hosts,
          String.join (hosts.map (fun h =>
            (execute_ssh VERBOSE_MODE h "" (conn h) remote_cmd).buffer))⟩

/-! ### Spec-side definitions used to compare with the source model -/

/-- Deduplication keeping the first occurrence, with an explicit seen-set. -/
def dedupFirst (seen : List String) : List String → List String
  | [] => []
  | x :: xs =>
    if seen.contains x then dedupFirst seen xs
    else x :: dedupFirst (x :: seen) xs

/-- Host resolution phrased as the spec words it: enumerate the non-wildcard
aliases, sort segment-wise, keep the case-insensitive substring matches, map
each alias to its address (alias itself when unmapped), dedup by resolved
address keeping first occurrences. -/
def resolve_spec (hs : List String) (hn : List (String × String)) (pat : String) :
    List String :=
  dedupFirst []
    (((sortBySeg (hs.filter (fun h => !(pyContains h "*")))).filter
        (fun h => pyContains (pyLower h) (pyLower pat))).map
      (fun h => dictGetD hn h h))

/-- Modelled from the spec's words (claim C5): a wildcard token on a `Host`
line becomes the current-host context but stays out of the matchable set. -/
def parseHostTokens_speclike (st : ParseState) (tokens : List String) : ParseState :=
  tokens.foldl
    (fun st h =>
      if pyContains h "*" then { st with current_host := h }
      else { st with current_host := h, hosts_set := setAdd st.hosts_set h })
    st

/-- Modelled from the spec's words (claim C5): `parseLine` with the
wildcard-records-context token rule. -/
def parseLine_speclike (st : ParseState) (rawLine : String) : ParseState :=
  let line := pyStrip rawLine
  if line = "" || pyStartsWith line "#" then st
  else if pyStartsWith line "Host " then
    parseHostTokens_speclike st (pySplit line).tail
  else if pyStartsWith line "Hostname " then
    if st.current_host ≠ "" then
      match (pySplit line).get? 1 with
      | some addr => { st with hostnames := dictSet st.hostnames st.current_host addr }
      | none => st
    else st
  else st

/-- Modelled from the spec's words (claim C5): the parse in which wildcard
aliases are recorded as current-host context. -/
def parse_ssh_config_speclike (lines : List String) : ParseState :=
  lines.foldl parseLine_speclike ⟨"", [], []⟩

/-- The wildcard-freeness invariant of the parser state: no alias in the
matchable set, no current-host context, and no `hostnames` key contains `*`. -/
def stateWildcardFree (st : ParseState) : Prop :=
  (∀ h ∈ st.hosts_set, pyContains h "*" = false) ∧
  (st.current_host = "" ∨ pyContains st.current_host "*" = false) ∧
  (∀ kv ∈ st.hostnames, pyContains kv.1 "*" = false)

/-! ### Concrete fixtures -/

/-- Registry of the spec's worked example: three aliases, each mapped to
itself by an explicit `Hostname` line. -/
def C3config : List String :=
  ["Host web1.example.com", "Hostname web1.example.com",
   "Host web2.example.com", "Hostname web2.example.com",
   "Host db1.example.com", "Hostname db1.example.com"]

/-- Two-host session oracle where both hosts succeed (claim C2's example). -/
def connC2 : String → Except String (String × Int) :=
  fun h => if h = "a" then .ok ("outA", 0) else .ok ("outB", 0)

/-- Two-host session oracle where host `A` fails to connect and `B` succeeds
(claim C7's example). -/
def connC7 : String → Except String (String × Int) :=
  fun h => if h = "A" then .error "connect timeout" else .ok ("done", 0)

/-! ### Helper lemmas -/

/-- A list that literally occurs in the middle is a contained substring. -/
lemma charsContain_of_eq (n pre post h : List Char)
    (heq : h = pre ++ n ++ post) : charsContain n h = true := by
  subst heq
  rw [charsContain, List.any_eq_true]
  refine ⟨n ++ post, (List.mem_tails _ _).mpr ?_, ?_⟩
  · rw [List.append_assoc]
    exact List.suffix_append pre (n ++ post)
  · exact List.isPrefixOf_iff_prefix.mpr (List.prefix_append n post)

/-- `mid` occurs as a substring of `pre ++ mid ++ post`. -/
lemma pyContains_middle (pre mid post : String) :
    pyContains (pre ++ mid ++ post) mid = true := by
  apply charsContain_of_eq mid.toList pre.toList post.toList
  show (pre ++ mid ++ post).data = pre.data ++ mid.data ++ post.data
  simp [String.data_append]

/-- Membership after a Python-style set insertion. -/
lemma mem_setAdd {s : List String} {x y : String} (h : y ∈ setAdd s x) :
    y ∈ s ∨ y = x := by
  rw [setAdd] at h
  split at h
  · exact Or.inl h
  · rcases List.mem_append.mp h with h1 | h1
    · exact Or.inl h1
    · simp only [List.mem_singleton] at h1
      exact Or.inr h1

/-- Every entry of `dictSet d k v` is an old entry or carries the key `k`. -/
lemma mem_dictSet {d : List (String × String)} {k v : String} :
    ∀ kv ∈ dictSet d k v, kv ∈ d ∨ kv.1 = k := by
  induction d with
  | nil =>
    intro kv h
    rw [show dictSet [] k v = [(k, v)] from rfl, List.mem_singleton] at h
    exact Or.inr (by rw [h])
  | cons p rest ih =>
    intro kv h
    rw [show dictSet (p :: rest) k v =
        if p.1 = k then (k, v) :: rest else p :: dictSet rest k v from rfl] at h
    by_cases hpk : p.1 = k
    · rw [if_pos hpk, List.mem_cons] at h
      rcases h with h1 | h1
      · exact Or.inr (by rw [h1])
      · exact Or.inl (List.mem_cons_of_mem _ h1)
    · rw [if_neg hpk, List.mem_cons] at h
      rcases h with h1 | h1
      · exact Or.inl (by rw [h1]; exact List.mem_cons_self _ _)
      · rcases ih kv h1 with h2 | h2
        · exact Or.inl (List.mem_cons_of_mem _ h2)
        · exact Or.inr h2

/-- The `Host`-line token loop keeps the parser state wildcard-free. -/
lemma parseHostTokens_inv (tokens : List String) :
    ∀ st, stateWildcardFree st → stateWildcardFree (parseHostTokens st tokens) := by
  induction tokens with
  | nil => intro st h; exact h
  | cons t ts ih =>
    intro st h
    rw [parseHostTokens, List.foldl_cons]
    by_cases hw : pyContains t "*" = true
    · rw [if_pos hw]
      exact ih st h
    · rw [Bool.not_eq_true] at hw
      rw [if_neg (by rw [hw]; exact Bool.false_ne_true)]
      refine ih _ ⟨?_, Or.inr hw, h.2.2⟩
      intro y hy
      rcases mem_setAdd hy with h1 | h1
      · exact h.1 y h1
      · rw [h1]; exact hw

/-- One parsed line keeps the parser state wildcard-free. -/
lemma parseLine_inv (st : ParseState) (line : String)
    (h : stateWildcardFree st) : stateWildcardFree (parseLine st line) := by
  rw [parseLine]
  split
  · exact h
  split
  · exact parseHostTokens_inv _ _ h
  split
  · split
    · split
      · refine ⟨h.1, h.2.1, ?_⟩
        intro kv hkv
        rcases mem_dictSet kv hkv with h1 | h1
        · exact h.2.2 kv h1
        · rw [h1]
          rcases h.2.1 with h2 | h2
          · exact absurd h2 (by assumption)
          · exact h2
      · exact h
    · exact h
  · exact h

/-- The whole config parse is wildcard-free from the initial state. -/
lemma foldl_parseLine_inv (lines : List String) :
    ∀ st, stateWildcardFree st → stateWildcardFree (lines.foldl parseLine st) := by
  induction lines with
  | nil => intro st h; exact h
  | cons l ls ih =>
    intro st h
    rw [List.foldl_cons]
    exact ih _ (parseLine_inv st l h)

/-- `parse_ssh_config` never records a wildcard alias: not in the matchable
set, not as current-host context, not as a `hostnames` key. -/
lemma parse_ssh_config_wildcardFree (lines : List String) :
    stateWildcardFree (parse_ssh_config lines) :=
  foldl_parseLine_inv lines ⟨"", [], []⟩
    ⟨fun _ h => absurd h (List.not_mem_nil _), Or.inl rfl, fun _ h => absurd h (List.not_mem_nil _)⟩

/-- Inserting into a sorted list permutes consing. -/
lemma insertSorted_perm (le : String → String → Bool) (x : String) (l : List String) :
    (insertSorted le x l).Perm (x :: l) := by
  induction l with
  | nil => exact List.Perm.refl _
  | cons y ys ih =>
    rw [insertSorted]
    split
    · exact List.Perm.refl _
    · exact (ih.cons y).trans (List.Perm.swap x y ys)

/-- The segment-wise sort is a permutation of its input. -/
lemma sortBySeg_perm (l : List String) : (sortBySeg l).Perm l := by
  induction l with
  | nil => exact List.Perm.refl _
  | cons a as ih =>
    rw [show sortBySeg (a :: as) = insertSorted segLe a (sortBySeg as) from rfl]
    exact (insertSorted_perm segLe a (sortBySeg as)).trans (ih.cons a)

/-- On a wildcard-free list the matching loop is exactly
filter-by-substring, map-to-address, dedup-keeping-first. -/
lemma matchLoop_eq_dedup (hn : List (String × String)) (pat : String) :
    ∀ (l : List String), (∀ h ∈ l, pyContains h "*" = false) →
    ∀ printed, matchLoop hn pat printed l =
      dedupFirst printed
        ((l.filter (fun h => pyContains (pyLower h) (pyLower pat))).map
          (fun h => dictGetD hn h h)) := by
  intro l
  induction l with
  | nil => intro _ printed; rfl
  | cons x xs ih =>
    intro hwc printed
    have hx : pyContains x "*" = false := hwc x (List.mem_cons_self x xs)
    have hxs : ∀ h ∈ xs, pyContains h "*" = false :=
      fun h hm => hwc h (List.mem_cons_of_mem x hm)
    rw [matchLoop, List.filter_cons]
    by_cases hm : pyContains (pyLower x) (pyLower pat) = true
    · rw [if_pos (show (pyContains (pyLower x) (pyLower pat) && !pyContains x "*") = true
          by rw [hm, hx]; rfl),
        if_pos hm, List.map_cons, dedupFirst]
      show (if printed.contains (dictGetD hn x x) = true then matchLoop hn pat printed xs
        else dictGetD hn x x :: matchLoop hn pat (dictGetD hn x x :: printed) xs) = _
      by_cases hp : printed.contains (dictGetD hn x x) = true
      · rw [if_pos hp, if_pos hp]
        exact ih hxs printed
      · rw [if_neg hp, if_neg hp, ih hxs _]
    · rw [Bool.not_eq_true] at hm
      rw [if_neg (show ¬(pyContains (pyLower x) (pyLower pat) && !pyContains x "*") = true
          by rw [hm]; simp),
        if_neg (by rw [hm]; exact Bool.false_ne_true)]
      exact ih hxs printed

/-! ### Claim theorems -/

/-- Claim C1 (amended): for every non-empty token list, more than one token
always yields the individually single-quoted tokens joined with spaces under a
`sh -c` wrapper (privilege-escalation prefix on the `sh` invocation); exactly
one token is returned verbatim (after substitution) with the escalation prefix
when enabled — regardless of shell metacharacters, since the source tests the
token count before the metacharacter check. -/
theorem C1_wrap_remote_command_amended :
    ∀ (subst : String → String) (COMMAND : List String) (SUDO : Bool),
    COMMAND ≠ [] →
    (1 < COMMAND.length →
      wrap_remote_command subst COMMAND SUDO =
        (if SUDO then "sudo sh -c " else "sh -c ") ++
          String.intercalate " " (COMMAND.map pyQuote)) ∧
    (∀ t, COMMAND = [t] →
      wrap_remote_command subst COMMAND SUDO =
        if SUDO then "sudo " ++ subst t else subst t) := by
  intro subst COMMAND SUDO hne
  constructor
  · intro hlen
    rw [wrap_remote_command, if_neg hne, if_neg (by omega : ¬COMMAND.length = 1),
      if_pos (by rw [decide_eq_true hlen]; simp)]
    cases SUDO <;> simp
  · intro t ht
    rw [ht]
    rfl

/-- Claim C1 counterexample: a single token containing the metacharacter `*`
is returned verbatim, not wrapped as `sh -c` with the token quoted, although
the joined command text contains a listed metacharacter. -/
theorem C1_counterexample :
    hasShellMeta (String.intercalate " " ["a*"]) = true ∧
    wrap_remote_command id ["a*"] false = "a*" ∧
    ¬ wrap_remote_command id ["a*"] false =
        "sh -c " ++ String.intercalate " " (["a*"].map pyQuote) := by
  refine ⟨rfl, rfl, ?_⟩
  decide

/-- Witness for C1: a two-token command is quoted and wrapped. -/
theorem C1_witness :
    wrap_remote_command id ["ls", "-l"] false =
      (if false then "sudo sh -c " else "sh -c ") ++
        String.intercalate " " (["ls", "-l"].map pyQuote) :=
  (C1_wrap_remote_command_amended id ["ls", "-l"] false (by decide)).1 (by decide)

/-- Claim C6: per-host execution with a real command keeps a nonzero remote
exit status as the failure code, and downgrades a zero status to 127 exactly
when the captured output contains `error` or `not found` case-insensitively;
otherwise the result is success (code 0). -/
theorem C6_exit_status_policy :
    ∀ (VERBOSE : Bool) (host hdr output : String) (exit_status : Int) (remote_cmd : String),
    remote_cmd ≠ "" →
    (exit_status ≠ 0 →
      (execute_ssh VERBOSE host hdr (Except.ok (output, exit_status)) remote_cmd).code =
        exit_status) ∧
    (exit_status = 0 →
      ((execute_ssh VERBOSE host hdr (Except.ok (output, exit_status)) remote_cmd).code = 127 ↔
        (pyContains (pyLower output) "error" = true ∨
          pyContains (pyLower output) "not found" = true))) ∧
    (exit_status = 0 → pyContains (pyLower output) "error" = false →
      pyContains (pyLower output) "not found" = false →
      (execute_ssh VERBOSE host hdr (Except.ok (output, exit_status)) remote_cmd).code = 0) := by
  intro VERBOSE host hdr output exit_status remote_cmd hcmd
  have hb : (remote_cmd != "") = true := bne_iff_ne.mpr hcmd
  have hcode : (execute_ssh VERBOSE host hdr (Except.ok (output, exit_status)) remote_cmd).code =
      exit_code_policy exit_status output := by
    rw [execute_ssh]
    rw [if_pos hb]
  refine ⟨?_, ?_, ?_⟩
  · intro hnz
    rw [hcode, exit_code_policy, if_pos hnz]
  · intro hz
    rw [hcode, exit_code_policy, if_neg (by rw [hz]; exact fun h => h rfl)]
    constructor
    · intro h127
      by_cases he : pyContains (pyLower output) "error" = true
      · exact Or.inl he
      · by_cases hn : pyContains (pyLower output) "not found" = true
        · exact Or.inr hn
        · rw [Bool.not_eq_true] at he hn
          rw [if_neg (by rw [he, hn]; exact Bool.false_ne_true)] at h127
          exact absurd h127 (by decide)
    · intro hor
      rcases hor with he | hn
      · rw [if_pos (by rw [he]; rfl)]
      · rw [if_pos (by rw [hn]; simp)]
  · intro hz he hn
    rw [hcode, exit_code_policy, if_neg (by rw [hz]; exact fun h => h rfl),
      if_neg (by rw [he, hn]; exact Bool.false_ne_true)]

/-- Witness for C6: zero exit status with `Error:` in the output is downgraded
to code 127. -/
theorem C6_witness :
    (execute_ssh false "h" "" (Except.ok ("Error: x", 0)) "ls").code = 127 :=
  ((C6_exit_status_policy false "h" "" "Error: x" 0 "ls" (by decide)).2.1 rfl).mpr
    (Or.inl (by decide))

/-- Claim C9: a pattern matching zero aliases resolves to exactly the
one-element list holding the host pattern (the pattern after the `user@`
prefix is split off), and a successful resolution is never empty. -/
theorem C9_empty_match_fallback :
    ∀ (configLines : List String) (PATTERN : String) (MASS : Bool),
    (matched_hosts (parse_ssh_config configLines).hosts_set
        (parse_ssh_config configLines).hostnames (split_user_host PATTERN).2 = [] →
      extract_hosts configLines PATTERN MASS = Except.ok [(split_user_host PATTERN).2]) ∧
    (∀ hs, extract_hosts configLines PATTERN MASS = Except.ok hs → hs ≠ []) := by
  intro configLines PATTERN MASS
  constructor
  · intro hmt
    rw [extract_hosts]
    rw [hmt]
    rw [if_neg (by simp), if_pos rfl]
  · intro hs hok
    rw [extract_hosts] at hok
    split at hok
    · exact absurd hok (by simp)
    · split at hok
      · injection hok with h
        rw [← h]
        exact List.cons_ne_nil _ _
      · injection hok with h
        rw [← h]
        assumption

/-- Witness for C9: an empty registry with pattern `u@srv1` resolves to the
literal host `srv1`. -/
theorem C9_witness : extract_hosts [] "u@srv1" false = Except.ok ["srv1"] :=
  (C9_empty_match_fallback [] "u@srv1" false).1 (by decide)

/-- Claim C10: mass mode with an empty command token list aborts during input
validation with exit code 1, before host resolution and before any connection
attempt. -/
theorem C10_mass_empty_command :
    ∀ (configLines : List String) (PATTERN : String) (SUDO VERBOSE : Bool)
      (subst : String → String) (conn : String → Except String (String × Int))
      (listing : List String),
    xssh_main configLines PATTERN true SUDO VERBOSE [] subst conn listing =
      ⟨some (.massRequiresCommand, 1), false, [], ""⟩ := by
  intro configLines PATTERN SUDO VERBOSE subst conn listing
  rfl

/-- Claim C3: host resolution is exactly the spec-side pipeline — enumerate
non-wildcard aliases, sort by the dot-separated segment sequence
(segment-wise), keep the case-insensitive substring matches of the pattern,
map each alias to its address falling back to the alias, and deduplicate by
resolved address keeping first occurrences; in particular the three-alias
registry with pattern `web` in mass mode yields
`["web1.example.com", "web2.example.com"]` in that order. -/
theorem C3_resolution_pipeline :
    (∀ (configLines : List String) (pat : String),
      matched_hosts (parse_ssh_config configLines).hosts_set
          (parse_ssh_config configLines).hostnames pat =
        resolve_spec (parse_ssh_config configLines).hosts_set
          (parse_ssh_config configLines).hostnames pat) ∧
    extract_hosts C3config "web" true =
      Except.ok ["web1.example.com", "web2.example.com"] := by
  constructor
  · intro configLines pat
    obtain ⟨h1, -, -⟩ := parse_ssh_config_wildcardFree configLines
    have hf : (parse_ssh_config configLines).hosts_set.filter
        (fun h => !(pyContains h "*")) = (parse_ssh_config configLines).hosts_set :=
      List.filter_eq_self.mpr (fun a ha => by rw [h1 a ha]; rfl)
    rw [resolve_spec, hf, matched_hosts]
    exact matchLoop_eq_dedup _ _ _
      (fun h hm => h1 h ((sortBySeg_perm _).mem_iff.mp hm)) []
  · rfl

/-- Claim C4: when the pattern resolves to more than one host and mass mode is
off, the run aborts with the ambiguity error carrying the full candidate list,
host resolution having run but zero connections attempted. -/
theorem C4_ambiguity_aborts :
    ∀ (configLines : List String) (PATTERN : String) (SUDO VERBOSE : Bool)
      (COMMAND : List String) (subst : String → String)
      (conn : String → Except String (String × Int)) (listing : List String),
    1 < (matched_hosts (parse_ssh_config configLines).hosts_set
          (parse_ssh_config configLines).hostnames (split_user_host PATTERN).2).length →
    xssh_main configLines PATTERN false SUDO VERBOSE COMMAND subst conn listing =
      ⟨some (.ambiguousHost (matched_hosts (parse_ssh_config configLines).hosts_set
          (parse_ssh_config configLines).hostnames (split_user_host PATTERN).2), 1),
        true, [], ""⟩ := by
  intro configLines PATTERN SUDO VERBOSE COMMAND subst conn listing hlen
  have hv : validate_input false COMMAND = .ok () := by
    rw [validate_input]
    simp
  have he : extract_hosts configLines PATTERN false =
      .error (.ambiguousHost (matched_hosts (parse_ssh_config configLines).hosts_set
        (parse_ssh_config configLines).hostnames (split_user_host PATTERN).2)) := by
    rw [extract_hosts, if_pos (by rw [decide_eq_true hlen]; rfl)]
  simp only [xssh_main, hv, he, xsshErrorExitCode]

/-- Witness for C4: two aliases match `srv`, mass mode off, so the run ends in
the ambiguity error with both candidates and no session. -/
theorem C4_witness :
    xssh_main ["Host srv1", "Host srv2"] "srv" false false false ["ls"] id
        (fun _ => Except.error "e") [] =
      ⟨some (.ambiguousHost ["srv1", "srv2"], 1), true, [], ""⟩ :=
  C4_ambiguity_aborts ["Host srv1", "Host srv2"] "srv" false false ["ls"] id
    (fun _ => Except.error "e") [] (by decide)

/-- Claim C5 (amended): wildcard-containing aliases on `Host` lines are
skipped entirely — they neither become the current-host context for later
`Hostname` lines (the previous non-wildcard alias stays current) nor enter
the matchable alias set, so they are never connection targets. -/
theorem C5_wildcard_skipped :
    ∀ (configLines : List String),
    (∀ h ∈ (parse_ssh_config configLines).hosts_set, pyContains h "*" = false) ∧
    ((parse_ssh_config configLines).current_host = "" ∨
      pyContains (parse_ssh_config configLines).current_host "*" = false) ∧
    (∀ kv ∈ (parse_ssh_config configLines).hostnames, pyContains kv.1 "*" = false) :=
  fun configLines => parse_ssh_config_wildcardFree configLines

/-- Claim C5 counterexample: after `Host a`, `Host *`, `Hostname x.y` the
source's current host is still `a` (the wildcard was not recorded as context)
and `x.y` is attached to `a`, while the claim's reading attaches the wildcard
as current context. -/
theorem C5_counterexample :
    (parse_ssh_config ["Host a", "Host *", "Hostname x.y"]).current_host = "a" ∧
    (parse_ssh_config ["Host a", "Host *", "Hostname x.y"]).hostnames = [("a", "x.y")] ∧
    (parse_ssh_config_speclike ["Host a", "Host *", "Hostname x.y"]).current_host = "*" ∧
    (parse_ssh_config_speclike ["Host a", "Host *", "Hostname x.y"]).hostnames =
      [("*", "x.y")] ∧
    ¬ parse_ssh_config ["Host a", "Host *", "Hostname x.y"] =
        parse_ssh_config_speclike ["Host a", "Host *", "Hostname x.y"] := by
  refine ⟨rfl, rfl, rfl, rfl, ?_⟩
  decide

/-- Witness for C5: a concrete parsed registry has only wildcard-free
matchable aliases. -/
theorem C5_witness : pyContains "a" "*" = false :=
  (C5_wildcard_skipped ["Host a", "Host b*"]).1 "a" (by decide)

/-- Claim C2 (amended): after the join barrier the report is the concatenation
of the per-host buffers in the temporary directory's listing order — an
arbitrary permutation of the hosts whose files exist — and every such host's
buffer appears exactly once (no short-circuit), but not necessarily in
host-list order. -/
theorem C2_report_listing_order :
    ∀ (HOSTS : List String) (VERBOSE : Bool)
      (conn : String → Except String (String × Int)) (remote_cmd : String)
      (listing : List String),
    listing.Perm (written_hosts HOSTS VERBOSE conn remote_cmd) →
    parallel_execute HOSTS VERBOSE conn remote_cmd listing =
      String.join (listing.map (fun h =>
        (execute_ssh VERBOSE h (massHdr VERBOSE h) (conn h) remote_cmd).buffer ++ "\n")) ∧
    (listing.map (fun h =>
        (execute_ssh VERBOSE h (massHdr VERBOSE h) (conn h) remote_cmd).buffer ++ "\n")).Perm
      ((written_hosts HOSTS VERBOSE conn remote_cmd).map (fun h =>
        (execute_ssh VERBOSE h (massHdr VERBOSE h) (conn h) remote_cmd).buffer ++ "\n")) :=
  fun _ _ _ _ _ hp => ⟨rfl, hp.map _⟩

/-- Claim C2 counterexample: with hosts `[a, b]` both succeeding, the listing
permutation `[b, a]` makes the report `outB`-before-`outA`, which differs from
the host-list-order concatenation the claim requires. -/
theorem C2_counterexample :
    (["b", "a"] : List String).Perm (written_hosts ["a", "b"] false connC2 "ls") ∧
    ¬ parallel_execute ["a", "b"] false connC2 "ls" ["b", "a"] =
        String.join ((written_hosts ["a", "b"] false connC2 "ls").map (fun h =>
          (execute_ssh false h (massHdr false h) (connC2 h) "ls").buffer ++ "\n")) := by
  constructor
  · decide
  · decide

/-- Witness for C2: with a single host the report is the listing-order
concatenation. -/
theorem C2_witness :
    parallel_execute ["a"] false connC2 "ls" ["a"] =
      String.join (["a"].map (fun h =>
        (execute_ssh false h (massHdr false h) (connC2 h) "ls").buffer ++ "\n")) :=
  (C2_report_listing_order ["a"] false connC2 "ls" ["a"] (by decide)).1

/-- Claim C7: a connection failure is recorded as that host's failure with
exit code 1 and the exception text inside its captured output; each host's
fleet result depends only on that host's own session outcome, and in the
concrete `[A, B]` run with `A` failing the report holds exactly two results —
`A` failed with the connection-error message, `B` successful. -/
theorem C7_connection_failure_isolated :
    ∀ (VERBOSE : Bool) (host hdr e remote_cmd : String) (HOSTS : List String)
      (conn conn2 : String → Except String (String × Int)) (cmd : String),
    ((execute_ssh VERBOSE host hdr (Except.error e) remote_cmd).code = 1 ∧
      pyContains (execute_ssh VERBOSE host hdr (Except.error e) remote_cmd).buffer e =
        true) ∧
    ((∀ h ∈ HOSTS, conn h = conn2 h) →
      fleet_results HOSTS VERBOSE conn cmd = fleet_results HOSTS VERBOSE conn2 cmd) ∧
    fleet_results ["A", "B"] false connC7 "ls" =
      [("A", ⟨"Connection failed on A: connect timeout\n", true, 1⟩),
       ("B", ⟨"done", true, 0⟩)] := by
  intro VERBOSE host hdr e remote_cmd HOSTS conn conn2 cmd
  refine ⟨⟨rfl, ?_⟩, ?_, by decide⟩
  · show pyContains ((if VERBOSE && hdr != "" then hdr ++ "\n" else "") ++
      "Connection failed on " ++ host ++ ": " ++ e ++ "\n") e = true
    exact pyContains_middle _ e "\n"
  · intro hcong
    rw [fleet_results, fleet_results]
    exact List.map_congr_left (fun h hm => by rw [hcong h hm])

/-- Witness for C7: instantiated at the concrete `[A, B]` oracle, discharging
the pointwise-agreement hypothesis. -/
theorem C7_witness :
    (execute_ssh false "A" "" (Except.error "x") "ls").code = 1 ∧
    fleet_results ["A", "B"] false connC7 "ls" = fleet_results ["A", "B"] false connC7 "ls" := by
  have h := C7_connection_failure_isolated false "A" "" "x" "ls" ["A", "B"] connC7 connC7 "ls"
  exact ⟨h.1.1, h.2.1 (fun _ _ => rfl)⟩

/-- Claim C8: in mass mode, a restricted token anywhere in the joined command
text aborts the run during validation with exit code 1 — before host
resolution runs and with zero sessions attempted. -/
theorem C8_restricted_command_rejected :
    ∀ (configLines : List String) (PATTERN : String) (SUDO VERBOSE : Bool)
      (COMMAND : List String) (subst : String → String)
      (conn : String → Except String (String × Int)) (listing : List String),
    (∃ c ∈ forbidden_commands, pyContains (String.intercalate " " COMMAND) c = true) →
    ∃ c ∈ forbidden_commands,
      xssh_main configLines PATTERN true SUDO VERBOSE COMMAND subst conn listing =
        ⟨some (.restrictedCommand c, 1), false, [], ""⟩ := by
  intro configLines PATTERN SUDO VERBOSE COMMAND subst conn listing hex
  obtain ⟨c, hc, hp⟩ := hex
  have hne : COMMAND.isEmpty = false := by
    cases COMMAND with
    | nil =>
      exfalso
      rw [forbidden_commands] at hc
      rcases List.mem_cons.mp hc with h1 | h1
      · rw [h1] at hp; exact absurd hp (by decide)
      rcases List.mem_cons.mp h1 with h2 | h2
      · rw [h2] at hp; exact absurd hp (by decide)
      rcases List.mem_cons.mp h2 with h3 | h3
      · rw [h3] at hp; exact absurd hp (by decide)
      · exact absurd h3 (List.not_mem_nil c)
    | cons a as => rfl
  have hsome : (forbidden_commands.find?
      (fun cmd => pyContains (String.intercalate " " COMMAND) cmd)).isSome = true :=
    List.find?_isSome.mpr ⟨c, hc, hp⟩
  obtain ⟨c2, hc2⟩ := Option.isSome_iff_exists.mp hsome
  refine ⟨c2, List.mem_of_find?_eq_some hc2, ?_⟩
  have hv : validate_input true COMMAND = .error (.restrictedCommand c2) := by
    rw [validate_input, if_neg (by rw [hne]; simp), if_pos (by rw [hne]; rfl)]
    show (match forbidden_commands.find?
        (fun cmd => pyContains (String.intercalate " " COMMAND) cmd) with
      | some cmd => Except.error (XsshError.restrictedCommand cmd)
      | none => Except.ok ()) = Except.error (XsshError.restrictedCommand c2)
    rw [hc2]
  simp only [xssh_main, hv, xsshErrorExitCode]

/-- Witness for C8: a mass-mode `shutdown -h now` is rejected before
resolution with no session attempted. -/
theorem C8_witness :
    ∃ c ∈ forbidden_commands,
      xssh_main [] "p" true false false ["shutdown", "-h", "now"] id
          (fun _ => Except.error "e") [] =
        ⟨some (.restrictedCommand c, 1), false, [], ""⟩ :=
  C8_restricted_command_rejected [] "p" false false ["shutdown", "-h", "now"] id
    (fun _ => Except.error "e") [] (by decide)
